import Mathlib

/-!
Shallow embedding of `src/appone.py`, the single-file personal-assistant app:
its Firestore-backed task store (`add_task`, `get_tasks`, `get_tasks_for_date`),
its Streamlit UI handlers, its Google-Calendar listing (`get_calendar_events`),
and the add-event builder kept in the trailing string literal of the file.

External collaborators (Firestore, the Calendar API, Vertex AI) are opaque
services; they are modelled here through their published request/response
contracts, exactly as the app uses them.  Machine-level details (OAuth flows,
credential files, page rendering) are out of scope.
-/

namespace AppOne

/-! ### Data model

A task document in the Firestore collection `tasks`, as built by `add_task`
(src/appone.py lines 72-77): description, due date (an ISO date string,
the UI passes `str(task_due)`), and a creation timestamp.  Timestamps are
modelled as naturals. -/

structure Task where
  description : String
  due_date : String
  created_at : Nat
deriving Repr, DecidableEq

/-- The Firestore collection `tasks`, modelled as the list of its documents in
insertion order. -/
abbrev TaskStore := List Task

/-! ### Byte-wise string comparison

Firestore orders string fields lexicographically by UTF-8 bytes, and ISO
timestamps compare chronologically exactly when they compare bytewise.  The
comparison is given as an executable Boolean function on the character lists
underlying `String`. -/

def charListLe : List Char → List Char → Bool
  | [], _ => true
  | _ :: _, [] => false
  | a :: as, b :: bs => if a = b then charListLe as bs else decide (a < b)

def strLe (a b : String) : Bool := charListLe a.data b.data

theorem charListLe_trans :
    ∀ (x y z : List Char), charListLe x y → charListLe y z → charListLe x z := by
  intro x
  induction x with
  | nil => intro y z _ _; rfl
  | cons a as ih =>
    intro y z hxy hyz
    cases y with
    | nil => simp [charListLe] at hxy
    | cons b bs =>
      cases z with
      | nil => simp [charListLe] at hyz
      | cons c cs =>
        simp only [charListLe] at hxy hyz ⊢
        by_cases hab : a = b
        · subst hab
          simp only [if_pos rfl] at hxy
          by_cases hbc : a = c
          · subst hbc
            simp only [if_pos rfl] at hyz ⊢
            exact ih bs cs hxy hyz
          · simp only [if_neg hbc] at hyz ⊢
            exact hyz
        · simp only [if_neg hab] at hxy
          by_cases hbc : b = c
          · subst hbc
            simp only [if_neg hab]
            exact hxy
          · simp only [if_neg hbc] at hyz
            have hac : a < c := lt_trans (of_decide_eq_true hxy) (of_decide_eq_true hyz)
            have hne : a ≠ c := ne_of_lt hac
            simp only [if_neg hne]
            exact decide_eq_true hac

theorem charListLe_total :
    ∀ (x y : List Char), charListLe x y || charListLe y x := by
  intro x
  induction x with
  | nil => intro y; simp [charListLe]
  | cons a as ih =>
    intro y
    cases y with
    | nil => simp [charListLe]
    | cons b bs =>
      simp only [charListLe]
      by_cases hab : a = b
      · subst hab
        simp only [if_pos rfl]
        exact ih bs
      · have hba : b ≠ a := fun h => hab h.symm
        simp only [if_neg hab, if_neg hba]
        rcases lt_or_gt_of_ne (show a ≠ b from hab) with h | h
        · simp [decide_eq_true h]
        · simp [decide_eq_true h]

theorem strLe_trans (x y z : String) : strLe x y → strLe y z → strLe x z :=
  charListLe_trans x.data y.data z.data

theorem strLe_total (x y : String) : strLe x y || strLe y x :=
  charListLe_total x.data y.data

/-! ### Task store operations (src/appone.py lines 72-83)

`task_collection.add` appends a new document; `order_by("due_date").stream()`
yields all documents sorted ascending by the `due_date` field (Firestore's
`order_by` contract, default direction ascending); `where("due_date", "==",
d).stream()` yields the documents whose `due_date` equals `d`. -/

def add_task (description : String) (due_date : String) (now : Nat)
    (store : TaskStore) : TaskStore :=
  store ++ [{ description := description, due_date := due_date, created_at := now }]

def taskLe (a b : Task) : Bool := strLe a.due_date b.due_date

def get_tasks (store : TaskStore) : List Task :=
  store.mergeSort taskLe

def get_tasks_for_date (selected_date : String) (store : TaskStore) : List Task :=
  store.filter (fun t => t.due_date == selected_date)

/-! ### The "Add Task Manually" UI handler (src/appone.py lines 104-109)

On the button press the handler calls `add_task(task_desc, str(task_due))` and
then renders "Task added!"; there is no validation of the description. -/

def addTaskHandler (task_desc : String) (task_due : String) (now : Nat)
    (store : TaskStore) : TaskStore × String :=
  (add_task task_desc task_due now store, "Task added!")

/-! ### The program's operations on the task store

The only code paths touching the `tasks` collection are `add_task`,
`get_tasks` and `get_tasks_for_date`; the two queries never write. -/

inductive Op where
  | addTask (description : String) (due_date : String) (now : Nat)
  | getTasks
  | getTasksForDate (d : String)
deriving Repr, DecidableEq

def applyOp (store : TaskStore) : Op → TaskStore
  | .addTask d dd now => add_task d dd now store
  | .getTasks => store
  | .getTasksForDate _ => store

def applyOps (store : TaskStore) : List Op → TaskStore
  | [] => store
  | op :: ops => applyOps (applyOp store op) ops

theorem taskLe_trans (a b c : Task) : taskLe a b → taskLe b c → taskLe a c :=
  strLe_trans a.due_date b.due_date c.due_date

theorem taskLe_total (a b : Task) : taskLe a b || taskLe b a :=
  strLe_total a.due_date b.due_date

/-! ### Google Calendar listing (src/appone.py lines 41-52)

`get_calendar_events` reads the OAuth credentials from the Streamlit session
state; with no credentials it shows a warning and returns `[]` without
building a service client.  With credentials it issues one `events.list`
request with `calendarId='primary'`, `timeMin=now` (the current UTC instant
as an ISO string), `maxResults=5`, `singleEvents=True`, `orderBy='startTime'`
and returns the response's `items`.  The external Calendar Service is
modelled through the published contract of `events.list`: it answers with
the events starting at or after `timeMin`, ordered ascending by start and
truncated to `maxResults`. -/

structure Credentials where
  token : String
deriving Repr, DecidableEq

structure CalEvent where
  summary : String
  start : String
deriving Repr, DecidableEq

structure EventsListRequest where
  calendarId : String
  timeMin : String
  maxResults : Nat
  singleEvents : Bool
  orderBy : String
deriving Repr, DecidableEq

/-- Model of the external Calendar Service's `events.list` endpoint, per its
published contract: events with start at or after `timeMin`, ascending by
start time, at most `maxResults` of them. -/
def CalendarService.listEvents (events : List CalEvent)
    (req : EventsListRequest) : List CalEvent :=
  ((events.filter (fun e => strLe req.timeMin e.start)).mergeSort
    (fun a b => strLe a.start b.start)).take req.maxResults

def get_calendar_events_request (now : String) : EventsListRequest :=
  { calendarId := "primary", timeMin := now, maxResults := 5,
    singleEvents := true, orderBy := "startTime" }

structure FetchResult where
  warnings : List String
  items : List CalEvent
  serviceContacted : Bool
deriving Repr, DecidableEq

def get_calendar_events (creds : Option Credentials) (now : String)
    (serverEvents : List CalEvent) : FetchResult :=
  match creds with
  | none =>
    { warnings := ["Authenticate with Google Calendar to view events."],
      items := [], serviceContacted := false }
  | some _ =>
    { warnings := [],
      items := CalendarService.listEvents serverEvents (get_calendar_events_request now),
      serviceContacted := true }

/-! ### Live UI handlers and exception flow (src/appone.py lines 89-102)

`send_to_gemini` forwards the prompt to the Vertex AI model and returns its
text.  The "Ask Gemini" handler calls it with no `try`/`except`, as does the
"Show My Tasks" handler around `get_tasks()`: a failure raised by the
external call escapes the handler.  External calls are modelled as
`Except`-valued behaviours passed in as parameters; `HandlerOutcome.raised`
marks an exception leaving the handler uncaught. -/

inductive HandlerOutcome (α : Type) where
  | rendered (a : α)
  | raised (exc : String)
deriving Repr, DecidableEq

def send_to_gemini (model : String → Except String String)
    (prompt : String) : Except String String :=
  model prompt

def askGeminiHandler (model : String → Except String String)
    (user_input : String) : HandlerOutcome String :=
  match send_to_gemini model user_input with
  | .ok response => .rendered response
  | .error e => .raised e

def showTasksHandler (stream : Except String (List Task)) :
    HandlerOutcome (List Task) :=
  match stream with
  | .ok tasks => .rendered tasks
  | .error e => .raised e

/-! ### The add-event builder (trailing string literal of src/appone.py,
lines 295-310 and 370-391)

The "Add Event to Google Calendar" section combines the chosen date and time
widgets with `datetime.combine` into `start_datetime` and `end_datetime`,
rejects an empty (stripped) title and `end_datetime <= start_datetime` with
`st.error`, and otherwise calls `add_event_to_calendar`, which builds the
insert payload (`summary`, `start`/`end` each an isoformat `dateTime` with
`timeZone: UTC`) and delegates it to the Calendar Service, catching service
failures with `st.error`.  Dates, times and instants are modelled with
naturals; chronological comparison of instants is via `toSeconds`, which is
monotone in (year, month, day, hour, minute, second) for calendar-valid
values. -/

structure Date where
  year : Nat
  month : Nat
  day : Nat
deriving Repr, DecidableEq

structure Time where
  hour : Nat
  minute : Nat
  second : Nat
deriving Repr, DecidableEq

structure DateTime where
  date : Date
  time : Time
deriving Repr, DecidableEq

def DateTime.combine (d : Date) (t : Time) : DateTime := ⟨d, t⟩

def DateTime.toSeconds (dt : DateTime) : Nat :=
  ((((dt.date.year * 13 + dt.date.month) * 32 + dt.date.day) * 24
    + dt.time.hour) * 60 + dt.time.minute) * 60 + dt.time.second

def pad2 (n : Nat) : String :=
  if n < 10 then "0" ++ toString n else toString n

def pad4 (n : Nat) : String :=
  if n < 10 then "000" ++ toString n
  else if n < 100 then "00" ++ toString n
  else if n < 1000 then "0" ++ toString n
  else toString n

def DateTime.isoformat (dt : DateTime) : String :=
  pad4 dt.date.year ++ "-" ++ pad2 dt.date.month ++ "-" ++ pad2 dt.date.day
    ++ "T" ++ pad2 dt.time.hour ++ ":" ++ pad2 dt.time.minute ++ ":"
    ++ pad2 dt.time.second

/-- Model of Python's `str.strip()`: drop leading and trailing whitespace. -/
def pyStrip (s : String) : String :=
  ⟨((s.data.dropWhile Char.isWhitespace).reverse.dropWhile Char.isWhitespace).reverse⟩

structure EventTime where
  dateTime : String
  timeZone : String
deriving Repr, DecidableEq

structure EventPayload where
  summary : String
  start : EventTime
  «end» : EventTime
deriving Repr, DecidableEq

/-- Builds the `events.insert` payload and delegates it to the Calendar
Service (`insert` is the service's behaviour, returning the `htmlLink` or a
failure); returns the delegated payload alongside the service's answer. -/
def add_event_to_calendar (summary : String) (start_time end_time : DateTime)
    (insert : EventPayload → Except String String) :
    EventPayload × Except String String :=
  let event : EventPayload :=
    { summary := summary,
      start := { dateTime := start_time.isoformat, timeZone := "UTC" },
      «end» := { dateTime := end_time.isoformat, timeZone := "UTC" } }
  (event, insert event)

inductive AddEventOutcome where
  | errorMessage (msg : String)
  | successMessage (msg : String)
deriving Repr, DecidableEq

def AddEventOutcome.isError : AddEventOutcome → Bool
  | .errorMessage _ => true
  | .successMessage _ => false

structure AddEventResult where
  outcome : AddEventOutcome
  delegated : Option EventPayload
deriving Repr, DecidableEq

def addEventHandler (event_summary : String) (event_start : Date)
    (event_start_time : Time) (event_end : Date) (event_end_time : Time)
    (insert : EventPayload → Except String String) : AddEventResult :=
  let start_datetime := DateTime.combine event_start event_start_time
  let end_datetime := DateTime.combine event_end event_end_time
  if pyStrip event_summary = "" then
    { outcome := .errorMessage "Event title cannot be empty.", delegated := none }
  else if end_datetime.toSeconds ≤ start_datetime.toSeconds then
    { outcome := .errorMessage "End time must be after start time.", delegated := none }
  else
    match add_event_to_calendar event_summary start_datetime end_datetime insert with
    | (event, Except.ok link) =>
      { outcome := .successMessage ("Event created! View it on Google Calendar: " ++ link),
        delegated := some event }
    | (event, Except.error e) =>
      { outcome := .errorMessage ("Failed to add event: " ++ e),
        delegated := some event }

theorem applyOps_eq_append (ops : List Op) :
    ∀ store : TaskStore, ∃ appended, applyOps store ops = store ++ appended := by
  induction ops with
  | nil => intro store; exact ⟨[], (List.append_nil store).symm⟩
  | cons op ops ih =>
    intro store
    cases op with
    | addTask d dd now =>
      obtain ⟨ap, hap⟩ := ih (store ++
        [{ description := d, due_date := dd, created_at := now }])
      refine ⟨{ description := d, due_date := dd, created_at := now } :: ap, ?_⟩
      simpa [applyOps, applyOp, add_task, List.append_assoc] using hap
    | getTasks => simpa [applyOps, applyOp] using ih store
    | getTasksForDate d => simpa [applyOps, applyOp] using ih store

end AppOne

namespace AppOne

/-- C1 counterexample: the live "Add Task" handler (src/appone.py lines
104-109) performs no empty-description check.  Pressing the button with an
empty description on an empty store appends a record anyway, so the
task-creation operation does not fail on empty descriptions. -/
theorem addTaskHandler_empty_description_appends :
    (addTaskHandler "" "2024-01-01" 0 []).1 ≠ ([] : TaskStore) ∧
      (addTaskHandler "" "2024-01-01" 0 []).1 =
        [{ description := "", due_date := "2024-01-01", created_at := 0 }] := by
  exact ⟨by decide, rfl⟩

/-- C1 (amended): every press of the "Add Task" button appends exactly one
record carrying the given description (whether empty or not), the given due
date and the creation timestamp, and reports success; no empty-description
validation occurs. -/
theorem addTaskHandler_always_appends (task_desc task_due : String) (now : Nat)
    (store : TaskStore) :
    addTaskHandler task_desc task_due now store =
      (store ++ [Task.mk task_desc task_due now], "Task added!") := rfl

/-- C2: `get_tasks` returns all stored tasks (a permutation of the store,
whatever the insertion order was) sorted ascending by the `due_date` field. -/
theorem get_tasks_sorted_by_due_date (store : TaskStore) :
    (get_tasks store).Perm store ∧
      (get_tasks store).Pairwise (fun a b => strLe a.due_date b.due_date = true) :=
  ⟨List.mergeSort_perm store taskLe,
    List.sorted_mergeSort (fun a b c => taskLe_trans a b c) taskLe_total store⟩

/-- C3: `get_tasks_for_date` returns exactly the stored tasks whose
`due_date` is string-equal to the selected date, and returns the empty list
(not an error) when no stored task matches. -/
theorem get_tasks_for_date_exact_matches (d : String) (store : TaskStore) (t : Task) :
    (t ∈ get_tasks_for_date d store ↔ t ∈ store ∧ t.due_date = d) ∧
      ((∀ u ∈ store, u.due_date ≠ d) → get_tasks_for_date d store = []) := by
  constructor
  · simp [get_tasks_for_date, List.mem_filter]
  · intro h
    simp only [get_tasks_for_date, List.filter_eq_nil_iff]
    intro u hu
    simpa using h u hu

/-- C3 witness (the spec's own example): on a store holding only due dates
"2024-01-01" and "2024-01-03", the query for "2024-01-02" returns empty. -/
theorem get_tasks_for_date_exact_matches_witness :
    get_tasks_for_date "2024-01-02"
      [{ description := "t1", due_date := "2024-01-01", created_at := 0 },
       { description := "t3", due_date := "2024-01-03", created_at := 1 }] = [] :=
  (get_tasks_for_date_exact_matches "2024-01-02"
    [{ description := "t1", due_date := "2024-01-01", created_at := 0 },
     { description := "t3", due_date := "2024-01-03", created_at := 1 }]
    { description := "t1", due_date := "2024-01-01", created_at := 0 }).2
    (by decide)

/-- C8: no operation of the program updates or deletes an existing task
record: after any sequence of operations the original store is preserved
verbatim as the initial segment of the resulting store, and every task
present before is still present with its fields unchanged. -/
theorem task_records_immutable (store : TaskStore) (ops : List Op) (t : Task)
    (h : t ∈ store) :
    (applyOps store ops).take store.length = store ∧ t ∈ applyOps store ops := by
  obtain ⟨ap, hap⟩ := applyOps_eq_append ops store
  rw [hap]
  exact ⟨List.take_left store ap, List.mem_append_left ap h⟩

/-- C4: the add-event builder rejects an empty summary, and an end instant
not strictly after the start instant, with a user-facing validation error;
it delegates nothing to the Calendar Service and raises no fault.  In
particular (see the witness) it rejects start 10:00, end 09:00 on the same
day. -/
theorem addEvent_invalid_input_rejected (event_summary : String)
    (event_start : Date) (event_start_time : Time) (event_end : Date)
    (event_end_time : Time) (insert : EventPayload → Except String String)
    (h : event_summary = "" ∨
      (DateTime.combine event_end event_end_time).toSeconds ≤
        (DateTime.combine event_start event_start_time).toSeconds) :
    (addEventHandler event_summary event_start event_start_time event_end
        event_end_time insert).outcome.isError = true ∧
      (addEventHandler event_summary event_start event_start_time event_end
        event_end_time insert).delegated = none := by
  rcases h with h | h
  · subst h
    have hs : pyStrip "" = "" := by decide
    simp [addEventHandler, hs, AddEventOutcome.isError]
  · by_cases hs : pyStrip event_summary = ""
    · simp [addEventHandler, hs, AddEventOutcome.isError]
    · simp [addEventHandler, hs, h, AddEventOutcome.isError]

/-- C4 witness (the spec's own example): start 10:00 and end 09:00 on the
same day is rejected with a validation error and nothing is delegated. -/
theorem addEvent_invalid_input_rejected_witness :
    (addEventHandler "Standup" (Date.mk 2024 1 2) (Time.mk 10 0 0)
        (Date.mk 2024 1 2) (Time.mk 9 0 0)
        (fun _ => Except.ok "link")).outcome.isError = true ∧
      (addEventHandler "Standup" (Date.mk 2024 1 2) (Time.mk 10 0 0)
        (Date.mk 2024 1 2) (Time.mk 9 0 0)
        (fun _ => Except.ok "link")).delegated = none :=
  addEvent_invalid_input_rejected "Standup" (Date.mk 2024 1 2) (Time.mk 10 0 0)
    (Date.mk 2024 1 2) (Time.mk 9 0 0) (fun _ => Except.ok "link")
    (Or.inr (by decide))

/-- C5: on valid input (title non-blank, end strictly after start) the
builder combines each chosen date and time into a single instant and
delegates to the Calendar Service a payload whose start and end timestamps
are the isoformats of those instants, each tagged with the explicit UTC
timezone. -/
theorem addEvent_valid_input_utc_payload (event_summary : String)
    (event_start : Date) (event_start_time : Time) (event_end : Date)
    (event_end_time : Time) (insert : EventPayload → Except String String)
    (hs : pyStrip event_summary ≠ "")
    (ht : (DateTime.combine event_start event_start_time).toSeconds <
      (DateTime.combine event_end event_end_time).toSeconds) :
    (addEventHandler event_summary event_start event_start_time event_end
        event_end_time insert).delegated =
      some (EventPayload.mk event_summary
        (EventTime.mk (DateTime.combine event_start event_start_time).isoformat "UTC")
        (EventTime.mk (DateTime.combine event_end event_end_time).isoformat "UTC")) := by
  have hle : ¬ (DateTime.combine event_end event_end_time).toSeconds ≤
      (DateTime.combine event_start event_start_time).toSeconds := not_le.mpr ht
  simp only [addEventHandler, add_event_to_calendar]
  rw [if_neg hs, if_neg hle]
  cases insert (EventPayload.mk event_summary
      (EventTime.mk (DateTime.combine event_start event_start_time).isoformat "UTC")
      (EventTime.mk (DateTime.combine event_end event_end_time).isoformat "UTC")) <;>
    rfl

/-- C5 witness (the spec's own example): start 10:00 and end 11:00 on the
same day is accepted and the delegated payload tags both timestamps UTC. -/
theorem addEvent_valid_input_utc_payload_witness :
    (addEventHandler "Standup" (Date.mk 2024 1 2) (Time.mk 10 0 0)
        (Date.mk 2024 1 2) (Time.mk 11 0 0)
        (fun _ => Except.ok "link")).delegated =
      some (EventPayload.mk "Standup"
        (EventTime.mk (DateTime.combine (Date.mk 2024 1 2) (Time.mk 10 0 0)).isoformat "UTC")
        (EventTime.mk (DateTime.combine (Date.mk 2024 1 2) (Time.mk 11 0 0)).isoformat "UTC")) :=
  addEvent_valid_input_utc_payload "Standup" (Date.mk 2024 1 2) (Time.mk 10 0 0)
    (Date.mk 2024 1 2) (Time.mk 11 0 0) (fun _ => Except.ok "link")
    (by decide) (by decide)

/-- C6 counterexample: a failure raised by the language-model call is not
caught at the call site of the live "Ask Gemini" handler; it escapes the
handler uncaught instead of being surfaced as a user-visible message. -/
theorem askGemini_failure_not_caught :
    askGeminiHandler (fun _ => Except.error "ServiceUnavailable: 503") "hello" =
      HandlerOutcome.raised "ServiceUnavailable: 503" := rfl

/-- C6 (amended): failures raised by the language-model call in the
"Ask Gemini" handler and by the task-store read in the "Show My Tasks"
handler are not caught at the call site: they propagate out of the handler
uncaught rather than being surfaced as user-visible messages. -/
theorem external_failures_propagate_uncaught :
    (∀ (model : String → Except String String) (input e : String),
      model input = Except.error e →
        askGeminiHandler model input = HandlerOutcome.raised e) ∧
    (∀ e : String,
      showTasksHandler (Except.error e) = HandlerOutcome.raised e) := by
  constructor
  · intro model input e h
    simp [askGeminiHandler, send_to_gemini, h]
  · intro e
    rfl

/-- C6 witness: a concrete language-model failure and a concrete task-store
failure both escape their handlers uncaught. -/
theorem external_failures_propagate_uncaught_witness :
    askGeminiHandler (fun _ => Except.error "boom") "hi" =
        HandlerOutcome.raised "boom" ∧
      showTasksHandler (Except.error "boom") = HandlerOutcome.raised "boom" :=
  ⟨external_failures_propagate_uncaught.1 (fun _ => Except.error "boom") "hi"
      "boom" rfl,
    external_failures_propagate_uncaught.2 "boom"⟩

/-- C7: with credentials present, the single `events.list` request issued by
`get_calendar_events` is time-bounded (`timeMin` is the current instant) and
ordered by start time (`orderBy = "startTime"`); consequently every returned
event starts at or after the current instant. -/
theorem get_calendar_events_time_bounded_ordered (c : Credentials)
    (now : String) (serverEvents : List CalEvent) (e : CalEvent)
    (h : e ∈ (get_calendar_events (some c) now serverEvents).items) :
    (get_calendar_events_request now).timeMin = now ∧
      (get_calendar_events_request now).orderBy = "startTime" ∧
      (get_calendar_events (some c) now serverEvents).items =
        CalendarService.listEvents serverEvents (get_calendar_events_request now) ∧
      strLe now e.start = true := by
  refine ⟨rfl, rfl, rfl, ?_⟩
  simp only [get_calendar_events, CalendarService.listEvents,
    get_calendar_events_request] at h
  have h1 := List.take_subset _ _ h
  have h2 := (List.mergeSort_perm _ _).mem_iff.mp h1
  exact (List.mem_filter.mp h2).2

unseal List.merge List.mergeSort in
/-- C7 witness: with one stored event starting after the current instant,
the returned event is time-bounded and the request fields are as stated. -/
theorem get_calendar_events_time_bounded_ordered_witness :
    (get_calendar_events_request "2024-01-01T00:00:00Z").timeMin =
        "2024-01-01T00:00:00Z" ∧
      (get_calendar_events_request "2024-01-01T00:00:00Z").orderBy = "startTime" ∧
      (get_calendar_events (some (Credentials.mk "tok")) "2024-01-01T00:00:00Z"
          [CalEvent.mk "standup" "2024-02-02T09:00:00Z"]).items =
        CalendarService.listEvents [CalEvent.mk "standup" "2024-02-02T09:00:00Z"]
          (get_calendar_events_request "2024-01-01T00:00:00Z") ∧
      strLe "2024-01-01T00:00:00Z" "2024-02-02T09:00:00Z" = true :=
  get_calendar_events_time_bounded_ordered (Credentials.mk "tok")
    "2024-01-01T00:00:00Z" [CalEvent.mk "standup" "2024-02-02T09:00:00Z"]
    (CalEvent.mk "standup" "2024-02-02T09:00:00Z") (by decide)

/-- C9: with no credentials in the session state, `get_calendar_events`
shows the authentication warning and returns the empty list without
contacting the Calendar Service and without raising an error. -/
theorem get_calendar_events_no_credentials (now : String)
    (serverEvents : List CalEvent) :
    get_calendar_events none now serverEvents =
      FetchResult.mk ["Authenticate with Google Calendar to view events."]
        [] false := rfl

/-- C10: with credentials present, the request asks for at most 5 events
(`maxResults = 5`), so the returned list never has more than 5 elements. -/
theorem get_calendar_events_at_most_five (c : Credentials) (now : String)
    (serverEvents : List CalEvent) :
    (get_calendar_events_request now).maxResults = 5 ∧
      (get_calendar_events (some c) now serverEvents).items.length ≤ 5 := by
  refine ⟨rfl, ?_⟩
  simp only [get_calendar_events, CalendarService.listEvents]
  exact List.length_take_le _ _

/-- C8 witness: a concrete task survives an add and the two queries with its
description, due date and creation timestamp unchanged. -/
theorem task_records_immutable_witness :
    (applyOps [{ description := "a", due_date := "2024-01-01", created_at := 0 }]
        [Op.addTask "b" "2024-01-02" 5, Op.getTasks,
         Op.getTasksForDate "2024-01-01"]).take 1 =
        [{ description := "a", due_date := "2024-01-01", created_at := 0 }] ∧
      { description := "a", due_date := "2024-01-01", created_at := 0 } ∈
        applyOps [{ description := "a", due_date := "2024-01-01", created_at := 0 }]
          [Op.addTask "b" "2024-01-02" 5, Op.getTasks,
           Op.getTasksForDate "2024-01-01"] :=
  task_records_immutable
    [{ description := "a", due_date := "2024-01-01", created_at := 0 }]
    [Op.addTask "b" "2024-01-02" 5, Op.getTasks, Op.getTasksForDate "2024-01-01"]
    { description := "a", due_date := "2024-01-01", created_at := 0 }
    (by decide)

end AppOne
